import Mathlib

/-!
Shallow embedding of the 2D-to-3D PCB reconstruction pipeline of
`src/main.js` (functions `svgToTexture`, `update3DView`, `getShapesFromSVG`
and the camera auto-framing code at the end of `update3DView`).

Modelling conventions:
* JavaScript numbers are modelled as exact rationals (`ℚ`); floating-point
  rounding and the platform's integer coercion of canvas pixel dimensions
  are abstracted away.
* The external SVG loader (`three/addons SVGLoader`) is a parameter: a
  function from a markup string to an optional list of paths, each carrying
  the shapes its `toShapes(true)` call would return (`none` models a parse
  throw).
* The asynchronous image decode of a rasterized SVG is modelled by a
  boolean per side (`decodeOk`): `false` makes `img.onerror` fire, `true`
  makes `img.onload` fire.
* Mesh rotations in the program are exact multiples of 90 degrees
  (`rotation.x = -Math.PI / 2`); they are stored as integer quarter-turn
  counts so that world-space coordinates stay rational.
* `camera.fov` is fixed at init and only read through
  `Math.tan(fovRadians / 2)`; that tangent is carried as a rational
  parameter `tanHalfFov` of the environment.
-/

namespace GerberViewer

abbrev Vec2 := ℚ × ℚ

abbrev Vec3 := ℚ × ℚ × ℚ

/-- A viewBox array `[a, b, c, d]`; the program reads widths as
`viewBox[2] - viewBox[0]` and heights as `viewBox[3] - viewBox[1]`. -/
abbrev Rect := ℚ × ℚ × ℚ × ℚ

/-- JavaScript truthiness of an optional string: `undefined` and the empty
string are falsy. -/
def truthyStr : Option String → Bool
  | none => false
  | some s => s != ""

/-- JavaScript truthiness of an optional number: `undefined` and `0` are
falsy (`NaN` is not representable in `ℚ`). -/
def truthyNum : Option ℚ → Bool
  | none => false
  | some q => q != 0

/-- One side of the stackup result (`stackup.top` / `stackup.bottom`):
a composite SVG markup string and a viewBox. -/
structure StackupSide where
  svg : Option String
  viewBox : Option Rect
deriving DecidableEq

/-- The raw-fragment outline representation (`outlineLayer.converter`):
viewBox, list of path-data fragments, declared width/height and units. -/
structure Converter where
  viewBox : Option Rect
  layer : Option (List String)
  width : Option ℚ
  height : Option ℚ
  units : Option String
deriving DecidableEq

/-- A typed layer of the stackup (`stackup.layers[i]`). -/
structure StackLayer where
  type : String
  svg : Option String
  converter : Option Converter
deriving DecidableEq

/-- The stackup compositor result consumed by `update3DView`. -/
structure Stackup where
  top : Option StackupSide
  bottom : Option StackupSide
  layers : Option (List StackLayer)
deriving DecidableEq

/-- A closed planar contour with hole contours, as produced by
`path.toShapes(true)` of the SVG loader. -/
structure Shape where
  contour : List Vec2
  holes : List (List Vec2)
deriving DecidableEq

/-- All 2D points of a shape (outer contour and holes). -/
def Shape.allPoints (s : Shape) : List Vec2 := s.contour ++ s.holes.flatten

/-- One parsed SVG path of the external loader, reduced to the shapes its
`toShapes(true)` call returns. -/
structure SVGPathModel where
  toShapes : List Shape
deriving DecidableEq

/-- The external SVG loader: `parse` returns `none` when
`svgLoader.parse(svgString)` would throw. -/
structure SVGLoaderModel where
  parse : String → Option (List SVGPathModel)

/-- Embedding of `getShapesFromSVG` (src/main.js lines 445-457): empty
input or a parse failure yields `[]`; otherwise all paths are flat-mapped
through `toShapes(true)`. -/
def getShapesFromSVG (loader : SVGLoaderModel) (svgString : String) : List Shape :=
  if svgString = "" then []
  else
    match loader.parse svgString with
    | none => []
    | some paths => paths.flatMap SVGPathModel.toShapes

/-- A rasterized side texture (`THREE.CanvasTexture` over the canvas built
in `svgToTexture`): pixel dimensions plus the sampling flags the program
sets. -/
structure Texture where
  width : ℚ
  height : ℚ
  flipY : Bool
  wrapSRepeat : Bool
  repeatX : ℚ
deriving DecidableEq

/-- Embedding of `svgToTexture` (src/main.js lines 308-348).  The promise
is an `Except`: `error` is a rejection.  Rejection paths, in program
order: missing/empty markup or missing viewBox (checked before the image
is created); image decode failure (`img.onerror`); non-positive viewBox
dimensions (checked in `img.onload`).  On success the canvas is
`2048 × 2048 * (viewBoxHeight / viewBoxWidth)` and the texture has
`flipY = false`. -/
def svgToTexture (decodeOk : Bool) (sd : StackupSide) : Except String Texture :=
  if !truthyStr sd.svg || sd.viewBox.isNone then
    .error ("Invalid stackup side data for texture generation")
  else if decodeOk then
    let vb := sd.viewBox.getD (0, 0, 0, 0)
    let viewBoxWidth := vb.2.2.1 - vb.1
    let viewBoxHeight := vb.2.2.2 - vb.2.1
    if viewBoxWidth ≤ 0 ∨ viewBoxHeight ≤ 0 then
      .error ("Invalid viewBox dimensions for texture")
    else
      .ok { width := 2048
            height := 2048 * (viewBoxHeight / viewBoxWidth)
            flipY := false
            wrapSRepeat := false
            repeatX := 1 }
  else
    .error ("Failed to load SVG image for texture generation.")

/-! ### Geometry -/

/-- A vertex-cloud view of a three.js geometry: for bounding-box and
extent reasoning only the vertex positions matter. -/
structure Geometry where
  verts : List Vec3
deriving DecidableEq

/-- Embedding of `new THREE.ExtrudeGeometry(shapes, { depth, bevelEnabled:
false })`: every contour point appears at the two cap depths `0` and
`depth`. -/
def extrudeGeometry (shapes : List Shape) (depth : ℚ) : Geometry :=
  ⟨(shapes.flatMap Shape.allPoints).flatMap (fun p => [(p.1, p.2, 0), (p.1, p.2, depth)])⟩

/-- Embedding of `geometry.scale(sx, sy, sz)`. -/
def Geometry.scale (g : Geometry) (sx sy sz : ℚ) : Geometry :=
  ⟨g.verts.map (fun v => (sx * v.1, sy * v.2.1, sz * v.2.2))⟩

/-- The x coordinates of a geometry's vertices. -/
def Geometry.xs (g : Geometry) : List ℚ := g.verts.map (fun v => v.1)

/-- The y coordinates of a geometry's vertices. -/
def Geometry.ys (g : Geometry) : List ℚ := g.verts.map (fun v => v.2.1)

/-- The z coordinates of a geometry's vertices. -/
def Geometry.zs (g : Geometry) : List ℚ := g.verts.map (fun v => v.2.2)

/-- Minimum of a list of rationals (`none` for the empty list). -/
def listMin : List ℚ → Option ℚ
  | [] => none
  | x :: xs => some (xs.foldl min x)

/-- Maximum of a list of rationals (`none` for the empty list). -/
def listMax : List ℚ → Option ℚ
  | [] => none
  | x :: xs => some (xs.foldl max x)

/-- An axis-aligned bounding box (`THREE.Box3`). -/
structure Box3 where
  min : Vec3
  max : Vec3
deriving DecidableEq

/-- Embedding of `geometry.computeBoundingBox()` /
`new THREE.Box3().setFromPoints`: `none` models the empty box. -/
def Geometry.boundingBox (g : Geometry) : Option Box3 :=
  match listMin g.xs, listMax g.xs, listMin g.ys, listMax g.ys, listMin g.zs, listMax g.zs with
  | some x0, some x1, some y0, some y1, some z0, some z1 =>
      some ⟨(x0, y0, z0), (x1, y1, z1)⟩
  | _, _, _, _, _, _ => none

/-- Embedding of `geometry.center()`: translate the geometry so that its
bounding box is centered on the origin (a no-op on empty geometry, whose
box is empty). -/
def Geometry.center (g : Geometry) : Geometry :=
  match g.boundingBox with
  | none => g
  | some bb =>
    let mx := (bb.min.1 + bb.max.1) / 2
    let my := (bb.min.2.1 + bb.max.2.1) / 2
    let mz := (bb.min.2.2 + bb.max.2.2) / 2
    ⟨g.verts.map (fun v => (v.1 - mx, v.2.1 - my, v.2.2 - mz))⟩

/-- Embedding of `box.getSize(target)`: `max - min` per axis, zero for the
empty box (three.js returns `(0,0,0)` for an empty `Box3`). -/
def geomSize (g : Geometry) : Vec3 :=
  match g.boundingBox with
  | none => (0, 0, 0)
  | some bb => (bb.max.1 - bb.min.1, bb.max.2.1 - bb.min.2.1, bb.max.2.2 - bb.min.2.2)

/-! ### Scene objects -/

/-- Material `side` constant of three.js. -/
inductive MatSide
  | FrontSide
  | BackSide
  | DoubleSide
deriving DecidableEq

/-- The material fields the program sets on its meshes. -/
structure Material where
  side : MatSide
  map : Option Texture
  transparent : Bool
  alphaTest : ℚ
  color : Option Nat
  roughness : Option ℚ
deriving DecidableEq

/-- A mesh of the PCB group.  Rotations are stored as quarter-turn counts
about the x and y axes (the program only ever sets
`rotation.x = -Math.PI / 2`); `posY` is `position.y`. -/
structure Mesh where
  geometry : Geometry
  rotXQuarters : Int
  rotYQuarters : Int
  posY : ℚ
  material : Material
deriving DecidableEq

/-- Embedding of `new THREE.PlaneGeometry(w, h)`: a w×h plane centered on
the origin in the xy-plane. -/
def planeGeometry (w h : ℚ) : Geometry :=
  ⟨[(-(w / 2), -(h / 2), 0), (w / 2, -(h / 2), 0), (-(w / 2), h / 2, 0), (w / 2, h / 2, 0)]⟩

/-- One positive quarter-turn about the x axis: `(x, y, z) ↦ (x, -z, y)`. -/
def rotXQuarter (v : Vec3) : Vec3 := (v.1, -v.2.2, v.2.1)

/-- One positive quarter-turn about the y axis: `(x, y, z) ↦ (z, y, -x)`. -/
def rotYQuarter (v : Vec3) : Vec3 := (v.2.2, v.2.1, -v.1)

/-- World-space vertex positions of a mesh: local vertices rotated by the
stored quarter-turns (x first, then y) and lifted by `position.y`. -/
def Mesh.worldVerts (m : Mesh) : List Vec3 :=
  m.geometry.verts.map (fun v =>
    let w := rotYQuarter^[(m.rotYQuarters % 4).toNat] (rotXQuarter^[(m.rotXQuarters % 4).toNat] v)
    (w.1, w.2.1 + m.posY, w.2.2))

/-! ### Board assembly (`update3DView`) -/

/-- The board thickness constant `BOARD_THICKNESS = 1.6`. -/
def BOARD_THICKNESS : ℚ := 8 / 5

/-- JS number-to-string for the synthesized outline markup (numeric
formatting details of JS are abstracted; the claims never depend on the
synthesized text, which only flows into the abstract loader). -/
def qstr (q : ℚ) : String := toString q

/-- String interpolation of a possibly-undefined number (an undefined JS
value interpolates as the text undefined). -/
def optNumStr : Option ℚ → String
  | none => "undefined"
  | some q => qstr q

/-- The `units || 'mm'` default of the synthesized outline markup. -/
def unitsStr : Option String → String
  | none => "mm"
  | some u => if u = "" then "mm" else u

/-- The outline markup synthesized from the raw-fragment representation
(src/main.js line 374). -/
def synthSvg (conv : Converter) (vb : Rect) (pathData : String) : String :=
  let u := unitsStr conv.units
  "<svg width=\"" ++ optNumStr conv.width ++ u ++ "\" height=\"" ++ optNumStr conv.height ++ u
    ++ "\" viewBox=\"" ++ qstr vb.1 ++ " " ++ qstr vb.2.1 ++ " " ++ qstr vb.2.2.1 ++ " "
    ++ qstr vb.2.2.2 ++ "\" version=\"1.1\" xmlns=\"http://www.w3.org/2000/svg\">"
    ++ pathData ++ "</svg>"

/-- Embedding of src/main.js lines 364-378: resolve the outline layer's
markup and the reconciliation scale.  Ready markup gives scale `1.0`;
the raw-fragment representation gives `width / viewBoxWidth`, guarded by
`width` being truthy and `viewBoxWidth > 0`; otherwise the layer is
unusable (`none`). -/
def resolveOutline (l : StackLayer) : Option (String × ℚ) :=
  if truthyStr l.svg then
    some (l.svg.getD "", 1)
  else
    match l.converter with
    | none => none
    | some conv =>
      match conv.layer, conv.viewBox with
      | some frag, some vb =>
        let pathData := String.join frag
        let viewBoxWidth := vb.2.2.1 - vb.1
        let scale := if truthyNum conv.width ∧ 0 < viewBoxWidth
          then conv.width.getD 0 / viewBoxWidth else 1
        some (synthSvg conv vb pathData, scale)
      | _, _ => none

/-- Locate the outline-typed layer (`stackup.layers` falsy check plus
`layers.find(l => l.type === 'outline')`). -/
def outlineOf (stk : Stackup) : Option StackLayer :=
  stk.layers.bind (fun layers => layers.find? (fun l => l.type == "outline"))

/-- The extruded, mirrored/scaled and centered board geometry
(src/main.js lines 387-390): extrude at depth 1.6, `scale(-scale, -scale,
1)`, then center. -/
def boardGeometry (shapes : List Shape) (scale : ℚ) : Geometry :=
  ((extrudeGeometry shapes BOARD_THICKNESS).scale (-scale) (-scale) 1).center

/-- Shape extraction and solid construction: `none` when no shapes could
be extracted from the outline markup. -/
def buildGeometry (loader : SVGLoaderModel) (svg : String) (scale : ℚ) : Option Geometry :=
  match getShapesFromSVG loader svg with
  | [] => none
  | s :: ss => some (boardGeometry (s :: ss) scale)

/-- The board substrate mesh (lines 392-395): FR4-colored double-sided
material, rotated -90° about x. -/
def boardMesh (geom : Geometry) : Mesh :=
  { geometry := geom
    rotXQuarters := -1
    rotYQuarters := 0
    posY := 0
    material := { side := MatSide.DoubleSide, map := none, transparent := false,
                  alphaTest := 0, color := some 0xECD39E, roughness := some (1 / 2) } }

/-- One side's overlay (src/main.js lines 401-430): attempted only when
the side and its markup are truthy; a texture rejection is caught and
yields no overlay.  The top overlay gets `wrapS = RepeatWrapping` and
`repeat.x = -1`, sits at `+thickness/2 + 0.1` with the default front-side
material; the bottom overlay keeps the texture untouched, sits at
`-thickness/2 - 0.1` and is rendered back-side.  Both planes are sized to
the board's in-plane bounding dimensions and rotated -90° about x; no
mesh gets a rotation about the vertical axis. -/
def overlayMesh (decodeOk : Bool) (side : Option StackupSide) (bw bd bt : ℚ)
    (isTop : Bool) : Option Mesh :=
  match side with
  | none => none
  | some sd =>
    if truthyStr sd.svg then
      match svgToTexture decodeOk sd with
      | .error _ => none
      | .ok tex =>
        let tex2 := if isTop then { tex with wrapSRepeat := true, repeatX := -1 } else tex
        some { geometry := planeGeometry bw bd
               rotXQuarters := -1
               rotYQuarters := 0
               posY := if isTop then bt / 2 + 1 / 10 else -(bt / 2) - 1 / 10
               material := { side := if isTop then MatSide.FrontSide else MatSide.BackSide,
                             map := some tex2, transparent := true, alphaTest := 1 / 2,
                             color := none, roughness := none } }
    else none

/-- The assembled render-pass result: the board solid plus the optional
top and bottom overlays, in the order they are added to the group. -/
structure Assembled where
  board : Mesh
  topOverlay : Option Mesh
  bottomOverlay : Option Mesh
deriving DecidableEq

/-- The group contents: board first, then top overlay, then bottom
overlay (the `pcbGroup.add` order of the program). -/
def Assembled.toGroup (a : Assembled) : List Mesh :=
  a.board :: (a.topOverlay.toList ++ a.bottomOverlay.toList)

/-- The environment of a render pass: the external SVG loader, the two
image-decode outcomes, and `tan(fovRadians / 2)` of the camera. -/
structure Env where
  loader : SVGLoaderModel
  topDecodeOk : Bool
  bottomDecodeOk : Bool
  tanHalfFov : ℚ

/-- The validation-and-build phase of `update3DView` (lines 353-430):
`none` on every early-exit path (missing stackup or layers, no
outline-typed layer, unusable outline representation, empty shape list);
otherwise the board plus per-side overlays. -/
def assemble (env : Env) (stackup : Option Stackup) : Option Assembled :=
  match stackup with
  | none => none
  | some stk =>
    match outlineOf stk with
    | none => none
    | some ol =>
      match resolveOutline ol with
      | none => none
      | some sv =>
        match buildGeometry env.loader sv.1 sv.2 with
        | none => none
        | some geom =>
          let size := geomSize geom
          some { board := boardMesh geom
                 topOverlay := overlayMesh env.topDecodeOk stk.top size.1 size.2.1 size.2.2 true
                 bottomOverlay :=
                   overlayMesh env.bottomDecodeOk stk.bottom size.1 size.2.1 size.2.2 false }

/-- World-space vertices of every mesh of a group
(`Box3().setFromObject(pcbGroup)` input). -/
def groupVerts (g : List Mesh) : List Vec3 := g.flatMap Mesh.worldVerts

/-- The size of the group's world-space bounding box. -/
def groupSize (g : List Mesh) : Vec3 := geomSize ⟨groupVerts g⟩

/-- `Math.max(size.x, size.z)` — the characteristic in-plane dimension
used for camera framing (line 436). -/
def groupMaxDim (g : List Mesh) : ℚ :=
  max (groupSize g).1 (groupSize g).2.2

/-- Camera position and orbit target. -/
structure CameraState where
  pos : Vec3
  target : Vec3
deriving DecidableEq

/-- Embedding of the auto-framing code (src/main.js lines 432-442):
`cameraDistance = (maxDim / tan(fov/2)) * 0.75`, camera at
`(0.6*maxDim, cameraDistance, 0.6*maxDim)`, orbit target at the
origin. -/
def frameCamera (g : List Mesh) (tanHalfFov : ℚ) : CameraState :=
  let maxDim := groupMaxDim g
  let cameraDistance := maxDim / tanHalfFov * (3 / 4)
  { pos := (maxDim * (3 / 5), cameraDistance, maxDim * (3 / 5)), target := (0, 0, 0) }

/-- The mutable scene state touched by `update3DView`: the PCB group and
the camera/orbit state. -/
structure RenderState where
  pcbGroup : List Mesh
  camera : CameraState
deriving DecidableEq

/-- Embedding of `update3DView` (src/main.js lines 350-443):
`pcbGroup.clear()` happens first, unconditionally; on an early-exit
validation failure the function returns with the group empty and the
camera untouched; on success the group holds the assembled meshes and the
camera is re-framed around them. -/
def update3DView (env : Env) (stackup : Option Stackup) (st : RenderState) : RenderState :=
  match assemble env stackup with
  | none => { st with pcbGroup := [] }
  | some a =>
    let group := a.toGroup
    { pcbGroup := group, camera := frameCamera group env.tanHalfFov }

/-! ### Statement vocabulary and concrete fixtures -/

/-- The extent of a list of coordinates: `max - min`, `0` when empty. -/
def spanOf (l : List ℚ) : ℚ :=
  match listMin l, listMax l with
  | some a, some b => b - a
  | _, _ => 0

/-- The input defects the spec lists as the Surface Texturer's rejection
causes: no markup, no bounding box, or non-positive bounding-box
dimensions. -/
def badTextureInput (sd : StackupSide) : Prop :=
  truthyStr sd.svg = false ∨ sd.viewBox = none ∨
    (∃ vb, sd.viewBox = some vb ∧ (vb.2.2.1 - vb.1 ≤ 0 ∨ vb.2.2.2 - vb.2.1 ≤ 0))

/-- A unit square contour. -/
def sq0 : Shape := ⟨[(0, 0), (1, 0), (1, 1), (0, 1)], []⟩

/-- A loader whose parse always yields one path holding the unit square. -/
def ld0 : SVGLoaderModel := ⟨fun _ => some [⟨[sq0]⟩]⟩

/-- A loader whose parse always throws. -/
def ldNone : SVGLoaderModel := ⟨fun _ => none⟩

/-- A side document with markup and a 1×1 viewBox. -/
def sdGood : StackupSide := ⟨some ("x"), some (0, 0, 1, 1)⟩

/-- A side document with a 1:2 (tall) viewBox. -/
def sdTall : StackupSide := ⟨some ("x"), some (0, 0, 1, 2)⟩

/-- A side document with a 2:1 (wide) viewBox. -/
def sdWide : StackupSide := ⟨some ("x"), some (0, 0, 2, 1)⟩

/-- An environment with the square-producing loader, both decodes
succeeding and a 90-degree-fov tangent of 1. -/
def env1 : Env := ⟨ld0, true, true, 1⟩

/-- An environment whose loader always fails to parse. -/
def env0 : Env := ⟨ldNone, true, true, 1⟩

/-- A stackup with a valid top side, no bottom side, and a ready-markup
outline layer. -/
def stk1 : Stackup :=
  { top := some ⟨some ("t"), some (0, 0, 1, 1)⟩, bottom := none,
    layers := some [{ type := "outline", svg := some ("o"), converter := none }] }

/-- A stackup whose layer list has no outline-typed entry. -/
def stkNoOutline : Stackup := { top := none, bottom := none, layers := some [] }

/-- A render state with a non-empty previous group, to exercise the
unconditional clear. -/
def stPrev : RenderState :=
  ⟨[boardMesh ⟨[(1, 1, 1)]⟩], ⟨(5, 5, 5), (1, 2, 3)⟩⟩

/-- A raw-fragment converter with declared width twice the viewBox
width. -/
def convTwice : Converter :=
  ⟨some (0, 0, 100, 50), some ["M 0 0 H 100 V 50 H 0 Z"], some 200, some 100, none⟩

/-- An outline layer carrying only the raw-fragment representation
`convTwice`. -/
def lTwice : StackLayer := ⟨"outline", none, some convTwice⟩

/-- A raw-fragment converter with no declared width (falsy). -/
def convNoWidth : Converter :=
  ⟨some (0, 0, 100, 50), some ["M 0 0"], none, some 100, none⟩

/-- An outline layer carrying only the raw-fragment representation
`convNoWidth`. -/
def lNoWidth : StackLayer := ⟨"outline", none, some convNoWidth⟩

/-- A plain material for fixture meshes. -/
def matPlain : Material := ⟨MatSide.FrontSide, none, false, 0, none, none⟩

/-- An unrotated mesh whose world bounding box spans 1×2×1. -/
def meshFlat : Mesh :=
  { geometry := ⟨[(0, 0, 0), (1, 2, 1)]⟩, rotXQuarters := 0, rotYQuarters := 0,
    posY := 0, material := matPlain }

/-! ### List min/max lemmas -/

theorem foldl_min_map_sub (l : List ℚ) (a c : ℚ) :
    (l.map (fun x => x - c)).foldl min (a - c) = l.foldl min a - c := by
  induction l generalizing a with
  | nil => simp
  | cons x xs ih =>
    simp only [List.map_cons, List.foldl_cons]
    rw [min_sub_sub_right, ih]

theorem foldl_max_map_sub (l : List ℚ) (a c : ℚ) :
    (l.map (fun x => x - c)).foldl max (a - c) = l.foldl max a - c := by
  induction l generalizing a with
  | nil => simp
  | cons x xs ih =>
    simp only [List.map_cons, List.foldl_cons]
    rw [max_sub_sub_right, ih]

theorem min_mul_of_nonpos (c a b : ℚ) (hc : c ≤ 0) : min (c * a) (c * b) = c * max a b := by
  rcases le_total a b with h | h
  · rw [max_eq_right h, min_eq_right (mul_le_mul_of_nonpos_left h hc)]
  · rw [max_eq_left h, min_eq_left (mul_le_mul_of_nonpos_left h hc)]

theorem max_mul_of_nonpos (c a b : ℚ) (hc : c ≤ 0) : max (c * a) (c * b) = c * min a b := by
  rcases le_total a b with h | h
  · rw [min_eq_left h, max_eq_left (mul_le_mul_of_nonpos_left h hc)]
  · rw [min_eq_right h, max_eq_right (mul_le_mul_of_nonpos_left h hc)]

theorem foldl_min_map_mul_nonpos (l : List ℚ) (a c : ℚ) (hc : c ≤ 0) :
    (l.map (fun x => c * x)).foldl min (c * a) = c * l.foldl max a := by
  induction l generalizing a with
  | nil => simp
  | cons x xs ih =>
    simp only [List.map_cons, List.foldl_cons]
    rw [min_mul_of_nonpos _ _ _ hc, ih]

theorem foldl_max_map_mul_nonpos (l : List ℚ) (a c : ℚ) (hc : c ≤ 0) :
    (l.map (fun x => c * x)).foldl max (c * a) = c * l.foldl min a := by
  induction l generalizing a with
  | nil => simp
  | cons x xs ih =>
    simp only [List.map_cons, List.foldl_cons]
    rw [max_mul_of_nonpos _ _ _ hc, ih]

theorem listMin_map_sub (l : List ℚ) (c : ℚ) :
    listMin (l.map (fun x => x - c)) = (listMin l).map (fun x => x - c) := by
  cases l with
  | nil => rfl
  | cons x xs => simp [listMin, foldl_min_map_sub]

theorem listMax_map_sub (l : List ℚ) (c : ℚ) :
    listMax (l.map (fun x => x - c)) = (listMax l).map (fun x => x - c) := by
  cases l with
  | nil => rfl
  | cons x xs => simp [listMax, foldl_max_map_sub]

theorem listMin_map_mul_nonpos (l : List ℚ) (c : ℚ) (hc : c ≤ 0) :
    listMin (l.map (fun x => c * x)) = (listMax l).map (fun x => c * x) := by
  cases l with
  | nil => rfl
  | cons x xs => simp [listMin, listMax, foldl_min_map_mul_nonpos _ _ _ hc]

theorem listMax_map_mul_nonpos (l : List ℚ) (c : ℚ) (hc : c ≤ 0) :
    listMax (l.map (fun x => c * x)) = (listMin l).map (fun x => c * x) := by
  cases l with
  | nil => rfl
  | cons x xs => simp [listMin, listMax, foldl_max_map_mul_nonpos _ _ _ hc]

/-! ### Span lemmas -/

theorem geomSize_eq_spans (g : Geometry) :
    geomSize g = (spanOf g.xs, spanOf g.ys, spanOf g.zs) := by
  cases hv : g.verts with
  | nil =>
    simp [geomSize, Geometry.boundingBox, Geometry.xs, Geometry.ys, Geometry.zs, hv,
      listMin, listMax, spanOf]
  | cons v vs =>
    simp [geomSize, Geometry.boundingBox, Geometry.xs, Geometry.ys, Geometry.zs, hv,
      listMin, listMax, spanOf]

theorem spanOf_map_sub (l : List ℚ) (c : ℚ) :
    spanOf (l.map (fun x => x - c)) = spanOf l := by
  cases l with
  | nil => rfl
  | cons x xs =>
    simp only [spanOf, listMin_map_sub, listMax_map_sub]
    cases hm : listMin (x :: xs) with
    | none => simp [listMin] at hm
    | some a =>
      cases hM : listMax (x :: xs) with
      | none => simp [listMax] at hM
      | some b => simp

theorem spanOf_map_mul_nonpos (l : List ℚ) (c : ℚ) (hc : c ≤ 0) :
    spanOf (l.map (fun x => c * x)) = -c * spanOf l := by
  cases l with
  | nil => simp [spanOf, listMin, listMax]
  | cons x xs =>
    simp only [spanOf, listMin_map_mul_nonpos _ _ hc, listMax_map_mul_nonpos _ _ hc]
    cases hm : listMin (x :: xs) with
    | none => simp [listMin] at hm
    | some a =>
      cases hM : listMax (x :: xs) with
      | none => simp [listMax] at hM
      | some b => simp; ring

theorem xs_scale (g : Geometry) (sx sy sz : ℚ) :
    (g.scale sx sy sz).xs = g.xs.map (fun x => sx * x) := by
  simp [Geometry.scale, Geometry.xs, List.map_map, Function.comp]

theorem ys_scale (g : Geometry) (sx sy sz : ℚ) :
    (g.scale sx sy sz).ys = g.ys.map (fun x => sy * x) := by
  simp [Geometry.scale, Geometry.ys, List.map_map, Function.comp]

theorem zs_scale (g : Geometry) (sx sy sz : ℚ) :
    (g.scale sx sy sz).zs = g.zs.map (fun x => sz * x) := by
  simp [Geometry.scale, Geometry.zs, List.map_map, Function.comp]

theorem xs_translate (g : Geometry) (mx my mz : ℚ) :
    (Geometry.mk (g.verts.map (fun v => (v.1 - mx, v.2.1 - my, v.2.2 - mz)))).xs
      = g.xs.map (fun x => x - mx) := by
  simp [Geometry.xs, List.map_map, Function.comp]

theorem ys_translate (g : Geometry) (mx my mz : ℚ) :
    (Geometry.mk (g.verts.map (fun v => (v.1 - mx, v.2.1 - my, v.2.2 - mz)))).ys
      = g.ys.map (fun x => x - my) := by
  simp [Geometry.ys, List.map_map, Function.comp]

theorem zs_translate (g : Geometry) (mx my mz : ℚ) :
    (Geometry.mk (g.verts.map (fun v => (v.1 - mx, v.2.1 - my, v.2.2 - mz)))).zs
      = g.zs.map (fun x => x - mz) := by
  simp [Geometry.zs, List.map_map, Function.comp]

theorem geomSize_scale_neg (g : Geometry) (s : ℚ) (hs : 0 ≤ s) :
    geomSize (g.scale (-s) (-s) 1) =
      (s * (geomSize g).1, s * (geomSize g).2.1, (geomSize g).2.2) := by
  rw [geomSize_eq_spans, geomSize_eq_spans, xs_scale, ys_scale, zs_scale,
    spanOf_map_mul_nonpos _ _ (neg_nonpos.mpr hs), spanOf_map_mul_nonpos _ _ (neg_nonpos.mpr hs)]
  simp [one_mul]

theorem geomSize_center (g : Geometry) : geomSize g.center = geomSize g := by
  unfold Geometry.center
  cases hbb : g.boundingBox with
  | none => rfl
  | some bb =>
    rw [geomSize_eq_spans, geomSize_eq_spans, xs_translate, ys_translate, zs_translate,
      spanOf_map_sub, spanOf_map_sub, spanOf_map_sub]

/-! ### Structural helper lemmas -/

theorem boundingBox_of_ne_nil (g : Geometry) (h : g.verts ≠ []) :
    ∃ a1 a2 a3 b1 b2 b3, listMin g.xs = some a1 ∧ listMax g.xs = some b1 ∧
      listMin g.ys = some a2 ∧ listMax g.ys = some b2 ∧
      listMin g.zs = some a3 ∧ listMax g.zs = some b3 ∧
      g.boundingBox = some ⟨(a1, a2, a3), (b1, b2, b3)⟩ := by
  rcases hv : g.verts with _ | ⟨v, vs⟩
  · exact absurd hv h
  · refine ⟨(vs.map (fun w => w.1)).foldl min v.1, (vs.map (fun w => w.2.1)).foldl min v.2.1,
      (vs.map (fun w => w.2.2)).foldl min v.2.2, (vs.map (fun w => w.1)).foldl max v.1,
      (vs.map (fun w => w.2.1)).foldl max v.2.1, (vs.map (fun w => w.2.2)).foldl max v.2.2,
      ?_, ?_, ?_, ?_, ?_, ?_, ?_⟩ <;>
    simp [Geometry.boundingBox, Geometry.xs, Geometry.ys, Geometry.zs, hv, listMin, listMax]

theorem center_boundingBox (g : Geometry) (h : g.verts ≠ []) :
    ∃ bb, g.center.boundingBox = some bb ∧
      bb.min.1 + bb.max.1 = 0 ∧ bb.min.2.1 + bb.max.2.1 = 0 ∧ bb.min.2.2 + bb.max.2.2 = 0 := by
  obtain ⟨a1, a2, a3, b1, b2, b3, hx, hX, hy, hY, hz, hZ, hbb⟩ := boundingBox_of_ne_nil g h
  have hcenter : g.center = Geometry.mk (g.verts.map (fun v =>
      (v.1 - (a1 + b1) / 2, v.2.1 - (a2 + b2) / 2, v.2.2 - (a3 + b3) / 2))) := by
    simp only [Geometry.center, hbb]
  refine ⟨⟨(a1 - (a1 + b1) / 2, a2 - (a2 + b2) / 2, a3 - (a3 + b3) / 2),
    (b1 - (a1 + b1) / 2, b2 - (a2 + b2) / 2, b3 - (a3 + b3) / 2)⟩, ?_, by ring, by ring, by ring⟩
  rw [hcenter]
  simp [Geometry.boundingBox, xs_translate, ys_translate, zs_translate,
    listMin_map_sub, listMax_map_sub, hx, hX, hy, hY, hz, hZ]

theorem extrudeGeometry_verts_ne_nil (shapes : List Shape) (d : ℚ)
    (h : shapes.flatMap Shape.allPoints ≠ []) :
    (extrudeGeometry shapes d).verts ≠ [] := by
  rcases hp : shapes.flatMap Shape.allPoints with _ | ⟨p, ps⟩
  · exact absurd hp h
  · simp [extrudeGeometry, hp]

theorem scale_verts_ne_nil (g : Geometry) (sx sy sz : ℚ) (h : g.verts ≠ []) :
    (g.scale sx sy sz).verts ≠ [] := by
  simpa [Geometry.scale] using h

theorem svgToTexture_ok_eq (sd : StackupSide) (vb : Rect)
    (hts : truthyStr sd.svg = true) (hvb : sd.viewBox = some vb)
    (hw : 0 < vb.2.2.1 - vb.1) (hh : 0 < vb.2.2.2 - vb.2.1) :
    svgToTexture true sd =
      .ok ⟨2048, 2048 * ((vb.2.2.2 - vb.2.1) / (vb.2.2.1 - vb.1)), false, false, 1⟩ := by
  simp [svgToTexture, hts, hvb, not_le.mpr hw, not_le.mpr hh]

theorem overlayMesh_none (d : Bool) (bw bd bt : ℚ) (isTop : Bool) :
    overlayMesh d none bw bd bt isTop = none := rfl

theorem assemble_eq_some (env : Env) (stk : Stackup) (a : Assembled)
    (h : assemble env (some stk) = some a) :
    ∃ ol sv geom, outlineOf stk = some ol ∧ resolveOutline ol = some sv ∧
      buildGeometry env.loader sv.1 sv.2 = some geom ∧
      a = { board := boardMesh geom,
            topOverlay := overlayMesh env.topDecodeOk stk.top (geomSize geom).1
              (geomSize geom).2.1 (geomSize geom).2.2 true,
            bottomOverlay := overlayMesh env.bottomDecodeOk stk.bottom (geomSize geom).1
              (geomSize geom).2.1 (geomSize geom).2.2 false } := by
  cases ho : outlineOf stk with
  | none => simp [assemble, ho] at h
  | some ol =>
    cases hr : resolveOutline ol with
    | none => simp [assemble, ho, hr] at h
    | some sv =>
      cases hb : buildGeometry env.loader sv.1 sv.2 with
      | none => simp [assemble, ho, hr, hb] at h
      | some geom =>
        refine ⟨ol, sv, geom, rfl, hr, hb, ?_⟩
        simp only [assemble, ho, hr, hb] at h
        exact (Option.some.inj h).symm

/-! ### Claim theorems -/

/-- C2 counterexample: for a composite side with bounding box of
width:height = 1:2 the produced texture is 2048 × 4096 pixels, so its
longer pixel dimension is 4096, not the base resolution 2048, and its
pixel height is not 2048 as the claim states. -/
theorem c2_counterexample :
    svgToTexture true sdTall = .ok ⟨2048, 4096, false, false, 1⟩ ∧
    max (2048 : ℚ) 4096 ≠ 2048 ∧ (4096 : ℚ) ≠ 2048 := by
  refine ⟨?_, by norm_num, by norm_num⟩
  have h := svgToTexture_ok_eq sdTall (0, 0, 1, 2) rfl rfl (by norm_num) (by norm_num)
  have hv : (2048 : ℚ) * ((2 - 0) / (1 - 0)) = 4096 := by norm_num
  rw [h, hv]

/-- C2 (amended): for a side document with positive bounding-box width
`w` and height `h`, the texture's pixel width is always 2048 and its
pixel height is `2048 * (h / w)` (the width:height ratio hence equals
`w:h` exactly); the longer pixel dimension equals 2048 only when
`h ≤ w`: for `w:h = 2:1` the texture is 2048 × 1024, while for
`w:h = 1:2` the pixel height is 4096, not 2048. -/
theorem c2_texture_resolution (sd : StackupSide) (vb : Rect)
    (hts : truthyStr sd.svg = true) (hvb : sd.viewBox = some vb)
    (hw : 0 < vb.2.2.1 - vb.1) (hh : 0 < vb.2.2.2 - vb.2.1) :
    svgToTexture true sd =
      .ok ⟨2048, 2048 * ((vb.2.2.2 - vb.2.1) / (vb.2.2.1 - vb.1)), false, false, 1⟩ ∧
    2048 * (vb.2.2.2 - vb.2.1)
      = (2048 * ((vb.2.2.2 - vb.2.1) / (vb.2.2.1 - vb.1))) * (vb.2.2.1 - vb.1) ∧
    (vb.2.2.2 - vb.2.1 ≤ vb.2.2.1 - vb.1 →
      max (2048 : ℚ) (2048 * ((vb.2.2.2 - vb.2.1) / (vb.2.2.1 - vb.1))) = 2048) ∧
    (vb.2.2.1 - vb.1 = 2 * (vb.2.2.2 - vb.2.1) →
      2048 * ((vb.2.2.2 - vb.2.1) / (vb.2.2.1 - vb.1)) = 1024) ∧
    (vb.2.2.2 - vb.2.1 = 2 * (vb.2.2.1 - vb.1) →
      2048 * ((vb.2.2.2 - vb.2.1) / (vb.2.2.1 - vb.1)) = 4096) := by
  refine ⟨svgToTexture_ok_eq sd vb hts hvb hw hh, ?_, ?_, ?_, ?_⟩
  · field_simp
  · intro hle
    have h1 : (vb.2.2.2 - vb.2.1) / (vb.2.2.1 - vb.1) ≤ 1 := (div_le_one hw).mpr hle
    have h2 : (2048 : ℚ) * ((vb.2.2.2 - vb.2.1) / (vb.2.2.1 - vb.1)) ≤ 2048 := by nlinarith
    exact max_eq_left h2
  · intro h2
    rw [h2]
    have hne : vb.2.2.2 - vb.2.1 ≠ 0 := hh.ne'
    field_simp
    ring
  · intro h2
    rw [h2]
    have hne : vb.2.2.1 - vb.1 ≠ 0 := hw.ne'
    field_simp
    ring

/-- C2 witness: for the 2:1 side `sdWide` the texture is 2048 × 1024. -/
theorem c2_witness :
    svgToTexture true sdWide = .ok ⟨2048, 1024, false, false, 1⟩ := by
  have h := c2_texture_resolution sdWide (0, 0, 2, 1) rfl rfl (by norm_num) (by norm_num)
  have hv : (2048 : ℚ) * ((1 - 0) / (2 - 0)) = 1024 := by norm_num
  rw [h.1, hv]

/-- C3 counterexample: a side with markup, a bounding box and strictly
positive dimensions is still rejected when the image decode fails, so
the rejection condition of the claim is not exact. -/
theorem c3_counterexample :
    svgToTexture false sdGood = .error ("Failed to load SVG image for texture generation.") ∧
    ¬ badTextureInput sdGood := by
  constructor
  · rfl
  · intro hbad
    rcases hbad with hb | hb | ⟨vb, hvb, hb⟩
    · simp [sdGood, truthyStr] at hb
    · simp [sdGood] at hb
    · have h5 : ((0 : ℚ), (0 : ℚ), (1 : ℚ), (1 : ℚ)) = vb := by
        simpa [sdGood] using hvb
      rw [← h5] at hb
      norm_num at hb

/-- C3 (amended): the Surface Texturer rejects exactly when the side has
no markup, no bounding box, a non-positive bounding-box dimension, or the
image decode fails; whenever it succeeds the texture has strictly
positive pixel width and height. -/
theorem c3_texture_rejection (decodeOk : Bool) (sd : StackupSide) :
    ((svgToTexture decodeOk sd).isOk = true ↔ (¬ badTextureInput sd ∧ decodeOk = true)) ∧
    (∀ t, svgToTexture decodeOk sd = .ok t → 0 < t.width ∧ 0 < t.height) := by
  cases hts : truthyStr sd.svg with
  | false =>
    have herr : svgToTexture decodeOk sd
        = .error ("Invalid stackup side data for texture generation") := by
      simp [svgToTexture, hts]
    refine ⟨iff_of_false ?_ (fun hc => hc.1 (Or.inl hts)), ?_⟩
    · rw [herr]
      simp [Except.isOk, Except.toBool]
    · intro t ht
      rw [herr] at ht
      exact Except.noConfusion ht
  | true =>
    cases hvb : sd.viewBox with
    | none =>
      have herr : svgToTexture decodeOk sd
          = .error ("Invalid stackup side data for texture generation") := by
        simp [svgToTexture, hvb]
      refine ⟨iff_of_false ?_ (fun hc => hc.1 (Or.inr (Or.inl hvb))), ?_⟩
      · rw [herr]
        simp [Except.isOk, Except.toBool]
      · intro t ht
        rw [herr] at ht
        exact Except.noConfusion ht
    | some vb =>
      cases decodeOk with
      | false =>
        have herr : svgToTexture false sd
            = .error ("Failed to load SVG image for texture generation.") := by
          simp [svgToTexture, hts, hvb]
        refine ⟨iff_of_false ?_ (fun hc => Bool.noConfusion hc.2), ?_⟩
        · rw [herr]
          simp [Except.isOk, Except.toBool]
        · intro t ht
          rw [herr] at ht
          exact Except.noConfusion ht
      | true =>
        by_cases hd : vb.2.2.1 - vb.1 ≤ 0 ∨ vb.2.2.2 - vb.2.1 ≤ 0
        · have hd2 : vb.2.2.1 ≤ vb.1 ∨ vb.2.2.2 ≤ vb.2.1 := by
            rcases hd with hb | hb
            · exact Or.inl (by linarith)
            · exact Or.inr (by linarith)
          have herr : svgToTexture true sd
              = .error ("Invalid viewBox dimensions for texture") := by
            simp [svgToTexture, hts, hvb, hd, hd2]
          refine ⟨iff_of_false ?_ (fun hc => hc.1 (Or.inr (Or.inr ⟨vb, hvb, hd⟩))), ?_⟩
          · rw [herr]
            simp [Except.isOk, Except.toBool]
          · intro t ht
            rw [herr] at ht
            exact Except.noConfusion ht
        · push_neg at hd
          have hok := svgToTexture_ok_eq sd vb hts hvb hd.1 hd.2
          have hnb : ¬ badTextureInput sd := by
            intro hbad
            rcases hbad with hb | hb | ⟨vb2, hvb2, hb⟩
            · rw [hts] at hb
              exact Bool.noConfusion hb
            · rw [hvb] at hb
              exact Option.noConfusion hb
            · rw [hvb] at hvb2
              obtain rfl := Option.some.inj hvb2
              rcases hb with hb | hb
              · exact absurd hb (not_le.mpr hd.1)
              · exact absurd hb (not_le.mpr hd.2)
          refine ⟨iff_of_true (by rw [hok]; rfl) ⟨hnb, rfl⟩, ?_⟩
          intro t ht
          rw [hok] at ht
          obtain rfl := Except.ok.inj ht
          refine ⟨by norm_num, ?_⟩
          have hpos : 0 < (vb.2.2.2 - vb.2.1) / (vb.2.2.1 - vb.1) := div_pos hd.2 hd.1
          have h2048 : (0 : ℚ) < 2048 := by norm_num
          exact mul_pos h2048 hpos

/-- C3 witness: a side with markup, bounding box and positive dimensions
whose decode succeeds produces a texture. -/
theorem c3_witness : (svgToTexture true sdGood).isOk = true := by
  refine ((c3_texture_rejection true sdGood).1).mpr ⟨?_, rfl⟩
  intro hbad
  rcases hbad with hb | hb | ⟨vb, hvb, hb⟩
  · simp [sdGood, truthyStr] at hb
  · simp [sdGood] at hb
  · have h5 : ((0 : ℚ), (0 : ℚ), (1 : ℚ), (1 : ℚ)) = vb := by
      simpa [sdGood] using hvb
    rw [← h5] at hb
    norm_num at hb

/-- C5: the reconciliation transform of the Solid Builder.  For a
raw-fragment outline (no ready markup; converter with fragments and a
viewBox) with truthy declared width `w` and positive viewBox width, the
resolved scale is `w / viewBoxWidth`; for ready markup the scale is 1;
the board geometry is the extrusion scaled by `(-scale, -scale, 1)` and
centered, so for a non-negative scale the two in-plane spans are
multiplied by `scale` and the depth span is unchanged; hence with
`w = 2 * viewBoxWidth` and an extrusion whose x span equals the viewBox
width, the solid's x span is twice the viewBox width. -/
theorem c5_reconciliation_scale (l : StackLayer) (conv : Converter) (frag : List String)
    (vb : Rect) (w : ℚ) (hsvg : truthyStr l.svg = false) (hconv : l.converter = some conv)
    (hfrag : conv.layer = some frag) (hvb : conv.viewBox = some vb) (hw : conv.width = some w)
    (hw0 : w ≠ 0) (hvbw : 0 < vb.2.2.1 - vb.1) :
    resolveOutline l = some (synthSvg conv vb (String.join frag), w / (vb.2.2.1 - vb.1)) ∧
    (∀ l2 : StackLayer, truthyStr l2.svg = true →
      resolveOutline l2 = some (l2.svg.getD "", 1)) ∧
    (∀ shapes sc, boardGeometry shapes sc
      = ((extrudeGeometry shapes BOARD_THICKNESS).scale (-sc) (-sc) 1).center) ∧
    (∀ shapes sc, 0 ≤ sc → geomSize (boardGeometry shapes sc)
      = (sc * (geomSize (extrudeGeometry shapes BOARD_THICKNESS)).1,
         sc * (geomSize (extrudeGeometry shapes BOARD_THICKNESS)).2.1,
         (geomSize (extrudeGeometry shapes BOARD_THICKNESS)).2.2)) ∧
    (w = 2 * (vb.2.2.1 - vb.1) →
      ∀ shapes, (geomSize (extrudeGeometry shapes BOARD_THICKNESS)).1 = vb.2.2.1 - vb.1 →
        (geomSize (boardGeometry shapes (w / (vb.2.2.1 - vb.1)))).1 = 2 * (vb.2.2.1 - vb.1)) := by
  have hscale : ∀ shapes sc, (0 : ℚ) ≤ sc → geomSize (boardGeometry shapes sc)
      = (sc * (geomSize (extrudeGeometry shapes BOARD_THICKNESS)).1,
         sc * (geomSize (extrudeGeometry shapes BOARD_THICKNESS)).2.1,
         (geomSize (extrudeGeometry shapes BOARD_THICKNESS)).2.2) := by
    intro shapes sc hsc
    rw [boardGeometry, geomSize_center, geomSize_scale_neg _ _ hsc]
  refine ⟨?_, ?_, fun _ _ => rfl, hscale, ?_⟩
  · simp [resolveOutline, hsvg, hconv, hfrag, hvb, hw, truthyNum, hw0, hvbw]
  · intro l2 h2
    simp [resolveOutline, h2]
  · intro hw2 shapes hspan
    have h2 : w / (vb.2.2.1 - vb.1) = 2 := by
      rw [hw2]
      field_simp
    rw [h2, hscale shapes 2 (by norm_num), hspan]

/-- C5 witness: the raw-fragment layer `lTwice` (declared width 200,
viewBox width 100) resolves with scale 2, and the scaled unit-square
extrusion doubles its in-plane span. -/
theorem c5_witness :
    (resolveOutline lTwice).map Prod.snd = some 2 ∧
    (geomSize (boardGeometry [sq0] 2)).1 = 2 * (geomSize (extrudeGeometry [sq0] BOARD_THICKNESS)).1 := by
  have h := c5_reconciliation_scale lTwice convTwice ["M 0 0 H 100 V 50 H 0 Z"]
    (0, 0, 100, 50) 200 rfl rfl rfl rfl rfl (by norm_num) (by norm_num)
  constructor
  · rw [h.1]
    norm_num [Option.map]
  · rw [h.2.2.2.1 [sq0] 2 (by norm_num)]

/-- C6: for every shape list containing at least one contour point, the
board geometry (extruded, scaled and centered) has a bounding box whose
min/max midpoint is exactly the origin on all three axes. -/
theorem c6_solid_centered (shapes : List Shape) (sc : ℚ)
    (h : shapes.flatMap Shape.allPoints ≠ []) :
    ∃ bb, (boardGeometry shapes sc).boundingBox = some bb ∧
      bb.min.1 + bb.max.1 = 0 ∧ bb.min.2.1 + bb.max.2.1 = 0 ∧ bb.min.2.2 + bb.max.2.2 = 0 := by
  have h1 := extrudeGeometry_verts_ne_nil shapes BOARD_THICKNESS h
  have h2 := scale_verts_ne_nil (extrudeGeometry shapes BOARD_THICKNESS) (-sc) (-sc) 1 h1
  exact center_boundingBox _ h2

/-- C6 witness: the unit-square board at scale 1 is centered. -/
theorem c6_witness :
    [sq0].flatMap Shape.allPoints ≠ [] ∧
    (∃ bb, (boardGeometry [sq0] 1).boundingBox = some bb ∧
      bb.min.1 + bb.max.1 = 0 ∧ bb.min.2.1 + bb.max.2.1 = 0 ∧ bb.min.2.2 + bb.max.2.2 = 0) :=
  ⟨by decide, c6_solid_centered [sq0] 1 (by decide)⟩

/-- C10: when the outline is synthesized from the raw-fragment
representation, the scale division is guarded: if the declared width is
falsy or the viewBox width is non-positive the scale stays 1, and in
general every resolved scale is either 1 or a quotient whose divisor is
strictly positive — no division by a zero viewBox width is ever used. -/
theorem c10_scale_guard (l : StackLayer) (conv : Converter) (frag : List String) (vb : Rect)
    (hsvg : truthyStr l.svg = false) (hconv : l.converter = some conv)
    (hfrag : conv.layer = some frag) (hvb : conv.viewBox = some vb) :
    ((truthyNum conv.width = false ∨ vb.2.2.1 - vb.1 ≤ 0) →
      resolveOutline l = some (synthSvg conv vb (String.join frag), 1)) ∧
    (∀ s sc, resolveOutline l = some (s, sc) →
      sc = 1 ∨ (0 < vb.2.2.1 - vb.1 ∧ sc = conv.width.getD 0 / (vb.2.2.1 - vb.1))) := by
  constructor
  · intro hg
    rcases hg with hg | hg
    · simp [resolveOutline, hsvg, hconv, hfrag, hvb, hg]
    · simp [resolveOutline, hsvg, hconv, hfrag, hvb, not_lt.mpr hg]
  · intro s sc hres
    by_cases hc : truthyNum conv.width = true ∧ 0 < vb.2.2.1 - vb.1
    · right
      refine ⟨hc.2, ?_⟩
      simp [resolveOutline, hsvg, hconv, hfrag, hvb, hc.1, hc.2] at hres
      exact hres.2.symm
    · left
      rw [Decidable.not_and_iff_or_not] at hc
      rcases hc with hc | hc
      · rw [Bool.not_eq_true] at hc
        simp [resolveOutline, hsvg, hconv, hfrag, hvb, hc] at hres
        exact hres.2.symm
      · simp [resolveOutline, hsvg, hconv, hfrag, hvb, hc] at hres
        exact hres.2.symm

/-- C10 witness: the raw-fragment layer `lNoWidth` (no declared width)
resolves with scale 1. -/
theorem c10_witness :
    resolveOutline lNoWidth = some (synthSvg convNoWidth (0, 0, 100, 50)
      (String.join ["M 0 0"]), 1) :=
  (c10_scale_guard lNoWidth convNoWidth ["M 0 0"] (0, 0, 100, 50)
    rfl rfl rfl rfl).1 (Or.inl rfl)

/-- C1: `pcbGroup.clear()` is the first mutation of `update3DView`: the
result never depends on the previous group contents, and on every
early-exit failure path (missing stackup or layers, no outline-typed
layer, unusable outline representation, empty extracted shape list) the
group is left empty, with no solid or overlay from a previous render
pass remaining. -/
theorem c1_clear_first (env : Env) (stackup : Option Stackup) (st : RenderState) :
    (∀ g2 : List Mesh, (update3DView env stackup st).pcbGroup
      = (update3DView env stackup { st with pcbGroup := g2 }).pcbGroup) ∧
    ((stackup = none ∨
      (∃ stk, stackup = some stk ∧ stk.layers = none) ∨
      (∃ stk, stackup = some stk ∧ outlineOf stk = none) ∨
      (∃ stk ol, stackup = some stk ∧ outlineOf stk = some ol ∧ resolveOutline ol = none) ∨
      (∃ stk ol sv, stackup = some stk ∧ outlineOf stk = some ol ∧
        resolveOutline ol = some sv ∧ getShapesFromSVG env.loader sv.1 = [])) →
      (update3DView env stackup st).pcbGroup = []) := by
  constructor
  · intro g2
    cases h : assemble env stackup <;> simp [update3DView, h]
  · intro hd
    suffices hA : assemble env stackup = none by simp [update3DView, hA]
    rcases hd with rfl | ⟨stk, rfl, hl⟩ | ⟨stk, rfl, ho⟩ | ⟨stk, ol, rfl, ho, hr⟩ |
      ⟨stk, ol, sv, rfl, ho, hr, hs⟩
    · rfl
    · have ho : outlineOf stk = none := by simp [outlineOf, hl]
      simp [assemble, ho]
    · simp [assemble, ho]
    · simp [assemble, ho, hr]
    · have hb : buildGeometry env.loader sv.1 sv.2 = none := by
        simp only [buildGeometry, hs]
      simp [assemble, ho, hr, hb]

/-- C1 witness: a stackup without an outline-typed layer leaves the
previously populated group empty. -/
theorem c1_witness : (update3DView env0 (some stkNoOutline) stPrev).pcbGroup = [] :=
  (c1_clear_first env0 (some stkNoOutline) stPrev).2
    (Or.inr (Or.inr (Or.inl ⟨stkNoOutline, rfl, rfl⟩)))

/-- C4: shape extraction is total and degrades gracefully: an empty
markup string or a parse failure yields the empty list, and for markup
the loader parses into at least one path with a non-empty shape list the
result is non-empty. -/
theorem c4_shape_extraction (loader : SVGLoaderModel) (s : String) :
    (s = "" → getShapesFromSVG loader s = []) ∧
    (loader.parse s = none → getShapesFromSVG loader s = []) ∧
    (∀ paths p, s ≠ "" → loader.parse s = some paths → p ∈ paths →
      p.toShapes ≠ [] → getShapesFromSVG loader s ≠ []) := by
  refine ⟨?_, ?_, ?_⟩
  · intro h
    simp [getShapesFromSVG, h]
  · intro h
    by_cases hs : s = ""
    · simp [getShapesFromSVG, hs]
    · simp [getShapesFromSVG, hs, h]
  · intro paths p hs hp hmem hne
    simp only [getShapesFromSVG, if_neg hs, hp]
    intro hnil
    obtain ⟨x, hx⟩ := List.exists_mem_of_ne_nil _ hne
    have hmem2 : x ∈ paths.flatMap SVGPathModel.toShapes :=
      List.mem_flatMap.mpr ⟨p, hmem, hx⟩
    rw [hnil] at hmem2
    exact absurd hmem2 (List.not_mem_nil x)

/-- C4 witness: a loader producing one square path yields a non-empty
shape list. -/
theorem c4_witness : getShapesFromSVG ld0 ("M") ≠ [] :=
  (c4_shape_extraction ld0 ("M")).2.2 [⟨[sq0]⟩] ⟨[sq0]⟩ (by decide) rfl
    (by decide) (by decide)

/-- C7: per-side failure isolation in board assembly: flipping one
side's decode outcome never changes the board or the other side's
overlay; the board heads the group in every successful assembly; with an
absent bottom document the group is exactly the board plus the top
overlay when one exists; and a valid present top document with a
successful decode always yields a top overlay. -/
theorem c7_side_isolation (env : Env) (stk : Stackup) (a : Assembled)
    (h : assemble env (some stk) = some a) :
    (∀ b, ∃ a2, assemble { env with topDecodeOk := b } (some stk) = some a2 ∧
      a2.board = a.board ∧ a2.bottomOverlay = a.bottomOverlay) ∧
    (∀ b, ∃ a2, assemble { env with bottomDecodeOk := b } (some stk) = some a2 ∧
      a2.board = a.board ∧ a2.topOverlay = a.topOverlay) ∧
    a.toGroup.head? = some a.board ∧
    (stk.bottom = none → a.bottomOverlay = none ∧
      (a.topOverlay = none → a.toGroup = [a.board]) ∧
      (∀ ov, a.topOverlay = some ov → a.toGroup = [a.board, ov])) ∧
    (env.topDecodeOk = true → ∀ sd vb, stk.top = some sd → truthyStr sd.svg = true →
      sd.viewBox = some vb → 0 < vb.2.2.1 - vb.1 → 0 < vb.2.2.2 - vb.2.1 →
      a.topOverlay.isSome = true) := by
  obtain ⟨ol, sv, geom, ho, hr, hb, rfl⟩ := assemble_eq_some env stk a h
  refine ⟨?_, ?_, rfl, ?_, ?_⟩
  · intro b
    refine ⟨{ board := boardMesh geom,
              topOverlay := overlayMesh b stk.top (geomSize geom).1
                (geomSize geom).2.1 (geomSize geom).2.2 true,
              bottomOverlay := overlayMesh env.bottomDecodeOk stk.bottom (geomSize geom).1
                (geomSize geom).2.1 (geomSize geom).2.2 false }, ?_, rfl, rfl⟩
    simp [assemble, ho, hr, hb]
  · intro b
    refine ⟨{ board := boardMesh geom,
              topOverlay := overlayMesh env.topDecodeOk stk.top (geomSize geom).1
                (geomSize geom).2.1 (geomSize geom).2.2 true,
              bottomOverlay := overlayMesh b stk.bottom (geomSize geom).1
                (geomSize geom).2.1 (geomSize geom).2.2 false }, ?_, rfl, rfl⟩
    simp [assemble, ho, hr, hb]
  · intro hbot
    refine ⟨by simp [hbot, overlayMesh_none], ?_, ?_⟩
    · intro ht
      simp only [] at ht
      simp [Assembled.toGroup, ht, hbot, overlayMesh_none]
    · intro ov hov
      simp only [] at hov
      simp [Assembled.toGroup, hov, hbot, overlayMesh_none]
  · intro htop sd vb hsd hts hvb hw hh
    simp only [htop, hsd]
    simp [overlayMesh, hts, svgToTexture_ok_eq sd vb hts hvb hw hh]

/-- C7 witness: with a valid top document and an absent bottom document
the assembled group has exactly two children (solid plus top overlay). -/
theorem c7_witness :
    (assemble env1 (some stk1)).map (List.length ∘ Assembled.toGroup) = some 2 := by
  obtain ⟨aw, hw⟩ := Option.isSome_iff_exists.mp
    (by rfl : (assemble env1 (some stk1)).isSome = true)
  have h := c7_side_isolation env1 stk1 aw hw
  have h5 := h.2.2.2.2 rfl ⟨some ("t"), some (0, 0, 1, 1)⟩ (0, 0, 1, 1) rfl rfl rfl
    (by norm_num) (by norm_num)
  obtain ⟨ov, hov⟩ := Option.isSome_iff_exists.mp h5
  have h4 := (h.2.2.2.1 rfl).2.2 ov hov
  rw [hw]
  simp [h4]

theorem overlayMesh_bottom_some (sd : StackupSide) (vb : Rect) (bw bd bt : ℚ)
    (hts : truthyStr sd.svg = true) (hvb : sd.viewBox = some vb)
    (hw : 0 < vb.2.2.1 - vb.1) (hh : 0 < vb.2.2.2 - vb.2.1) :
    overlayMesh true (some sd) bw bd bt false = some
      { geometry := planeGeometry bw bd, rotXQuarters := -1, rotYQuarters := 0,
        posY := -(bt / 2) - 1 / 10,
        material := { side := MatSide.BackSide,
                      map := some ⟨2048,
                        2048 * ((vb.2.2.2 - vb.2.1) / (vb.2.2.1 - vb.1)), false, false, 1⟩,
                      transparent := true, alphaTest := 1 / 2, color := none,
                      roughness := none } } := by
  simp [overlayMesh, hts, svgToTexture_ok_eq sd vb hts hvb hw hh]

theorem overlayMesh_top_some (sd : StackupSide) (vb : Rect) (bw bd bt : ℚ)
    (hts : truthyStr sd.svg = true) (hvb : sd.viewBox = some vb)
    (hw : 0 < vb.2.2.1 - vb.1) (hh : 0 < vb.2.2.2 - vb.2.1) :
    overlayMesh true (some sd) bw bd bt true = some
      { geometry := planeGeometry bw bd, rotXQuarters := -1, rotYQuarters := 0,
        posY := bt / 2 + 1 / 10,
        material := { side := MatSide.FrontSide,
                      map := some ⟨2048,
                        2048 * ((vb.2.2.2 - vb.2.1) / (vb.2.2.1 - vb.1)), false, true, -1⟩,
                      transparent := true, alphaTest := 1 / 2, color := none,
                      roughness := none } } := by
  simp [overlayMesh, hts, svgToTexture_ok_eq sd vb hts hvb hw hh]

/-- C8 counterexample: a produced bottom overlay has no rotation about
the vertical axis (`rotYQuarters = 0`, not the two quarter-turns of the
claimed 180° rotation); the code instead renders the bottom overlay's
back side (`BackSide` material).  Its position `-(0.8 + 0.1)` is as
claimed. -/
theorem c8_counterexample :
    (overlayMesh true (some sdGood) 1 1 (8 / 5) false).map Mesh.rotYQuarters = some 0 ∧
    ((0 : Int) ≠ 2 ∧ (0 : Int) ≠ -2) ∧
    ((overlayMesh true (some sdGood) 1 1 (8 / 5) false).map Mesh.material).map Material.side
      = some MatSide.BackSide ∧
    (overlayMesh true (some sdGood) 1 1 (8 / 5) false).map Mesh.posY = some (-(9 / 10)) := by
  have hov := overlayMesh_bottom_some sdGood (0, 0, 1, 1) 1 1 (8 / 5) rfl rfl
    (by norm_num) (by norm_num)
  refine ⟨by rw [hov]; simp, ⟨by decide, by decide⟩, by rw [hov]; simp, ?_⟩
  rw [hov]
  norm_num [Option.map]

/-- C8 (amended): each produced overlay is a plane sized to the solid's
in-plane bounding dimensions, positioned at `±(boardThickness/2 + 0.1)`
(±0.9 for the 1.6-thick board), the top just above the top face and the
bottom just below the bottom face; both overlays carry only the −90°
rotation about x — no rotation about the vertical axis — and the bottom
overlay is made readable from below by rendering its back face
(`BackSide` material) rather than by a 180° vertical-axis rotation. -/
theorem c8_overlay_geometry (decodeOk : Bool) (sd : StackupSide) (bw bd bt : ℚ) (isTop : Bool)
    (m : Mesh) (h : overlayMesh decodeOk (some sd) bw bd bt isTop = some m) :
    m.geometry = planeGeometry bw bd ∧
    m.posY = (if isTop then bt / 2 + 1 / 10 else -(bt / 2) - 1 / 10) ∧
    (bt = 8 / 5 → (isTop = true → m.posY = 9 / 10) ∧ (isTop = false → m.posY = -(9 / 10))) ∧
    (0 ≤ bt → (isTop = true → bt / 2 < m.posY) ∧ (isTop = false → m.posY < -(bt / 2))) ∧
    m.rotXQuarters = -1 ∧ m.rotYQuarters = 0 ∧
    m.material.side = (if isTop then MatSide.FrontSide else MatSide.BackSide) ∧
    m.material.transparent = true ∧ m.material.alphaTest = 1 / 2 ∧
    m.material.map.isSome = true := by
  cases hts : truthyStr sd.svg with
  | false => simp [overlayMesh, hts] at h
  | true =>
    cases htex : svgToTexture decodeOk sd with
    | error e => simp [overlayMesh, hts, htex] at h
    | ok tex =>
      simp only [overlayMesh, hts, htex, if_true] at h
      obtain rfl := Option.some.inj h
      cases isTop with
      | true =>
        refine ⟨rfl, rfl, ?_, ?_, rfl, rfl, rfl, rfl, rfl, rfl⟩
        · intro hbt
          refine ⟨fun _ => ?_, fun hc => Bool.noConfusion hc⟩
          show bt / 2 + 1 / 10 = 9 / 10
          rw [hbt]
          norm_num
        · intro hbt
          refine ⟨fun _ => ?_, fun hc => Bool.noConfusion hc⟩
          show bt / 2 < bt / 2 + 1 / 10
          linarith
      | false =>
        refine ⟨rfl, rfl, ?_, ?_, rfl, rfl, rfl, rfl, rfl, rfl⟩
        · intro hbt
          refine ⟨fun hc => Bool.noConfusion hc, fun _ => ?_⟩
          show -(bt / 2) - 1 / 10 = -(9 / 10)
          rw [hbt]
          norm_num
        · intro hbt
          refine ⟨fun hc => Bool.noConfusion hc, fun _ => ?_⟩
          show -(bt / 2) - 1 / 10 < -(bt / 2)
          linarith

/-- C8 witness: the top overlay over a 1.6-thick board sits at +0.9. -/
theorem c8_witness :
    (overlayMesh true (some sdGood) 1 1 (8 / 5) true).map Mesh.posY = some (9 / 10) := by
  have hm := overlayMesh_top_some sdGood (0, 0, 1, 1) 1 1 (8 / 5) rfl rfl
    (by norm_num) (by norm_num)
  have h := c8_overlay_geometry true sdGood 1 1 (8 / 5) true _ hm
  rw [hm]
  simpa using (h.2.2.1 rfl).1 rfl

/-- C9 counterexample: with `tanHalfFov = 1` and a group of
characteristic in-plane size 1, the camera's framing height
`cameraDistance` is 0.75, at which the board spans `1 / (2 * 0.75) = 2/3`
of the view frustum height — not the fixed fraction 0.75 the claim
states. -/
theorem c9_counterexample :
    groupMaxDim [meshFlat] = 1 ∧
    (frameCamera [meshFlat] 1).pos.2.1 = 3 / 4 ∧
    ¬ (groupMaxDim [meshFlat] = (3 / 4) * (2 * (frameCamera [meshFlat] 1).pos.2.1 * 1)) ∧
    groupMaxDim [meshFlat] = (2 / 3) * (2 * (frameCamera [meshFlat] 1).pos.2.1 * 1) := by
  have h1 : groupVerts [meshFlat] = [(0, 0, 0), (1, 2, 1)] := by
    simp [groupVerts, Mesh.worldVerts, meshFlat]
  have h2 : groupSize [meshFlat] = (1, 2, 1) := by
    rw [groupSize, h1, geomSize_eq_spans]
    simp [spanOf, listMin, listMax, Geometry.xs, Geometry.ys, Geometry.zs]
  have hmd : groupMaxDim [meshFlat] = 1 := by
    rw [groupMaxDim, h2]
    norm_num
  have hpos : (frameCamera [meshFlat] 1).pos.2.1 = 3 / 4 := by
    simp only [frameCamera]
    rw [hmd]
    norm_num
  refine ⟨hmd, hpos, ?_, ?_⟩
  · rw [hmd, hpos]
    norm_num
  · rw [hmd, hpos]
    norm_num

/-- C9 (amended): the Camera Framer computes the group's world bounding
box, takes the larger of its x and z spans as `maxDim`, positions the
camera at `(0.6*maxDim, (maxDim / tan(fov/2)) * 0.75, 0.6*maxDim)`
(diagonally offset above the board) and retargets the orbit focus to the
origin; at the framing height `(maxDim / tan(fov/2)) * 0.75` the board
spans the fraction 2/3 — not 0.75 — of the view frustum height. -/
theorem c9_camera_framing (g : List Mesh) (t : ℚ) (ht : t ≠ 0) :
    frameCamera g t = { pos := (groupMaxDim g * (3 / 5), groupMaxDim g / t * (3 / 4),
      groupMaxDim g * (3 / 5)), target := (0, 0, 0) } ∧
    groupMaxDim g = max (groupSize g).1 (groupSize g).2.2 ∧
    groupMaxDim g = (2 / 3) * (2 * (groupMaxDim g / t * (3 / 4)) * t) := by
  refine ⟨rfl, rfl, ?_⟩
  field_simp
  ring

/-- C9 witness: the framing formula instantiated at the fixture group
and `tanHalfFov = 1`. -/
theorem c9_witness :
    frameCamera [meshFlat] 1 = ⟨(groupMaxDim [meshFlat] * (3 / 5),
      groupMaxDim [meshFlat] / 1 * (3 / 4), groupMaxDim [meshFlat] * (3 / 5)),
      (0, 0, 0)⟩ :=
  (c9_camera_framing [meshFlat] 1 (by norm_num)).1

end GerberViewer
